import Mathlib

/-!
Shallow embedding of the RogueDrones client-workflow backend
(`backend/app/api/endpoints/*.py`, `backend/app/services/user.py`).

Modelling conventions, fixed once for the whole file:
* Mongo `ObjectId` values are modelled as `Nat`; `datetime` values as `Nat`
  ticks; `float` budgets as `Int` (no claim touches their arithmetic);
  `HttpUrl` as `String`; `Dict[str, HttpUrl]` as an association list.
* A Mongo collection is a `List` of records.  `find_one {"_id": i}` is
  `List.find?` on the id field, `count_documents` is `List.filter` + length,
  `update_one` with `$set`/`$push` is a pointwise `List.map` replacement,
  and `delete_one` removes the first matching record (`List.eraseP`).
* `insert_one` appends; the fresh `_id` generated by the driver is passed in
  explicitly (`newId`), and the operation-sequence semantics (`step`) always
  supplies a genuinely fresh one, mirroring ObjectId generation.
* A pydantic `Optional` field is an `Option`; `dict(exclude_unset=True)`
  partial updates are modelled by `Option` fields where `none` means
  "absent from the request body".
* A raised `HTTPException(code, detail)` is `Except.error ⟨code, detail⟩`;
  every endpoint raises before its first write, so an error result always
  leaves the store unchanged.
* Python truthiness on an optional string (`if x:`) is false for both
  `None` and `""`; on an optional id it is `Option.isSome` (ObjectId
  strings are never empty).
-/

namespace RogueDrones

/-- FastAPI `HTTPException`: an HTTP status code plus a human-readable
detail string (response headers are not modelled). -/
structure HTTPException where
  status_code : Nat
  detail : String
deriving Repr, DecidableEq

/-- Result of a route handler body: either a value or a raised
`HTTPException`. -/
abbrev Result (α : Type) := Except HTTPException α

/-- Python truthiness of an `Optional[str]`: `None` and `""` are falsy. -/
def optStrTruthy : Option String → Bool
  | none => false
  | some s => s ≠ ""

/-- Python `x or d` for an optional string `x` and default `d`: returns `d`
when `x` is `None` or empty. -/
def pyOrStr (x : Option String) (d : String) : String :=
  match x with
  | none => d
  | some s => if s = "" then d else s

/-- Mongo document of the `users` collection (`app/models/user.py`). -/
structure User where
  id : Nat
  email : String
  first_name : String
  last_name : String
  hashed_password : String
  is_active : Bool
  is_admin : Bool
deriving Repr, DecidableEq

/-- Mongo document of the `organisations` collection
(`app/models/organisation.py`). -/
structure Organisation where
  id : Nat
  name : String
  website : Option String
  industry : Option String
  location : Option String
  social_media : Option (List (String × String))
  notes : Option String
  created_at : Nat
  updated_at : Nat
deriving Repr, DecidableEq

/-- Mongo document of the `clients` collection (`app/models/client.py`). -/
structure Client where
  id : Nat
  name : String
  email : String
  phone : Option String
  organisation_id : Option Nat
  notes : Option String
  initial_query : Option String
  created_at : Nat
  updated_at : Nat
deriving Repr, DecidableEq

/-- Embedded milestone of a project (`app/models/project.py`). -/
structure Milestone where
  title : String
  description : Option String
  due_date : Option Nat
  completed : Bool
  completed_at : Option Nat
deriving Repr, DecidableEq

/-- Mongo document of the `projects` collection (`app/models/project.py`). -/
structure Project where
  id : Nat
  title : String
  description : Option String
  client_id : Nat
  organisation_id : Option Nat
  status : String
  budget : Option Int
  start_date : Option Nat
  end_date : Option Nat
  milestones : List Milestone
  assessment_score : Option Int
  notes : Option String
  created_at : Nat
  updated_at : Nat
deriving Repr, DecidableEq

/-- Embedded version of a document (`app/models/document.py`). -/
structure DocumentVersion where
  version_number : Nat
  content : String
  created_by : Nat
  created_at : Nat
  notes : Option String
deriving Repr, DecidableEq

/-- Mongo document of the `documents` collection
(`app/models/document.py`). -/
structure Document where
  id : Nat
  title : String
  document_type : String
  client_id : Nat
  project_id : Option Nat
  status : String
  current_version : Nat
  versions : List DocumentVersion
  requires_signature : Bool
  signed : Bool
  signed_at : Option Nat
  signed_by : Option Nat
  created_by : Nat
  created_at : Nat
  updated_at : Nat
deriving Repr, DecidableEq

/-- Embedded attendee of a meeting (`app/models/meeting.py`). -/
structure MeetingAttendee where
  name : String
  email : Option String
  organisation : Option String
  role : Option String
deriving Repr, DecidableEq

/-- Embedded key point of a meeting (`app/models/meeting.py`). -/
structure KeyPoint where
  content : String
  category : Option String
deriving Repr, DecidableEq

/-- Mongo document of the `meetings` collection (`app/models/meeting.py`). -/
structure Meeting where
  id : Nat
  title : String
  description : Option String
  client_id : Nat
  project_id : Option Nat
  start_time : Nat
  end_time : Option Nat
  location : Option String
  virtual : Bool
  meeting_url : Option String
  attendees : List MeetingAttendee
  recording_url : Option String
  transcript : Option String
  key_points : List KeyPoint
  notes : Option String
  created_at : Nat
  updated_at : Nat
deriving Repr, DecidableEq

/-- The whole database: one list per collection. -/
structure Store where
  users : List User
  organisations : List Organisation
  clients : List Client
  projects : List Project
  documents : List Document
  meetings : List Meeting
deriving Repr, DecidableEq

/-- The empty database. -/
def emptyStore : Store := ⟨[], [], [], [], [], []⟩

/-! ### Request body schemas (`app/schemas/*.py`)

Update schemas use `dict(exclude_unset=True)` in the endpoints (clients,
organisations, projects, meetings), so an `Option` field with `none` means
the field was absent from the request body.  `DocumentUpdate` instead goes
through `dict()` followed by dropping `None` values, which collapses
"absent" and "explicitly null" — the same `Option` reading applies. -/

/-- Request body for `POST /clients/` (`ClientCreate`). -/
structure ClientCreate where
  name : String
  email : String
  phone : Option String
  organisation_id : Option Nat
  notes : Option String
  initial_query : Option String
deriving Repr, DecidableEq

/-- Request body for `PUT /clients/{id}` (`ClientUpdate`). -/
structure ClientUpdate where
  name : Option String
  email : Option String
  phone : Option String
  organisation_id : Option Nat
  notes : Option String
  initial_query : Option String
deriving Repr, DecidableEq

/-- Request body for `POST /organisations/` (`OrganisationCreate`). -/
structure OrganisationCreate where
  name : String
  website : Option String
  industry : Option String
  location : Option String
  social_media : Option (List (String × String))
  notes : Option String
deriving Repr, DecidableEq

/-- Request body for `PUT /organisations/{id}` (`OrganisationUpdate`). -/
structure OrganisationUpdate where
  name : Option String
  website : Option String
  industry : Option String
  location : Option String
  social_media : Option (List (String × String))
  notes : Option String
deriving Repr, DecidableEq

/-- Request body for `POST /projects/` (`ProjectCreate`). -/
structure ProjectCreate where
  title : String
  description : Option String
  client_id : Nat
  organisation_id : Option Nat
  status : String
  budget : Option Int
  start_date : Option Nat
  end_date : Option Nat
  assessment_score : Option Int
  notes : Option String
  milestones : List Milestone
deriving Repr, DecidableEq

/-- Request body for `PUT /projects/{id}` (`ProjectUpdate`). -/
structure ProjectUpdate where
  title : Option String
  description : Option String
  client_id : Option Nat
  organisation_id : Option Nat
  status : Option String
  budget : Option Int
  start_date : Option Nat
  end_date : Option Nat
  assessment_score : Option Int
  notes : Option String
  milestones : Option (List Milestone)
deriving Repr, DecidableEq

/-- Request body for `POST /documents/` (`DocumentCreate`); `content` seeds
version 1. -/
structure DocumentCreate where
  title : String
  document_type : String
  client_id : Nat
  project_id : Option Nat
  status : String
  requires_signature : Bool
  content : String
deriving Repr, DecidableEq

/-- Request body for `PUT /documents/{id}` (`DocumentUpdate`). -/
structure DocumentUpdate where
  title : Option String
  document_type : Option String
  client_id : Option Nat
  project_id : Option Nat
  status : Option String
  requires_signature : Option Bool
  new_version_content : Option String
  new_version_notes : Option String
deriving Repr, DecidableEq

/-- Request body for `POST /meetings/` (`MeetingCreate`). -/
structure MeetingCreate where
  title : String
  description : Option String
  client_id : Nat
  project_id : Option Nat
  start_time : Nat
  end_time : Option Nat
  location : Option String
  virtual : Bool
  meeting_url : Option String
  notes : Option String
  attendees : List MeetingAttendee
deriving Repr, DecidableEq

/-- Request body for `PUT /meetings/{id}` (`MeetingUpdate`). -/
structure MeetingUpdate where
  title : Option String
  description : Option String
  client_id : Option Nat
  project_id : Option Nat
  start_time : Option Nat
  end_time : Option Nat
  location : Option String
  virtual : Option Bool
  meeting_url : Option String
  attendees : Option (List MeetingAttendee)
  recording_url : Option String
  transcript : Option String
  key_points : Option (List KeyPoint)
  notes : Option String
deriving Repr, DecidableEq

/-- Request body for `POST /auth/register` (`UserCreate`). -/
structure UserCreate where
  email : String
  first_name : String
  last_name : String
  password : String
deriving Repr, DecidableEq

/-! ### Collection lookup helpers (`find_one` on `_id`) -/

/-- The `find_one({"_id": ObjectId(i)})` query on the clients collection. -/
def findClient (s : Store) (i : Nat) : Option Client :=
  s.clients.find? (fun c => c.id == i)

/-- The `find_one({"_id": ObjectId(i)})` query on the organisations
collection. -/
def findOrganisation (s : Store) (i : Nat) : Option Organisation :=
  s.organisations.find? (fun o => o.id == i)

/-- The `find_one({"_id": ObjectId(i)})` query on the projects collection. -/
def findProject (s : Store) (i : Nat) : Option Project :=
  s.projects.find? (fun p => p.id == i)

/-- The `find_one({"_id": ObjectId(i)})` query on the documents
collection. -/
def findDocument (s : Store) (i : Nat) : Option Document :=
  s.documents.find? (fun d => d.id == i)

/-- The `find_one({"_id": ObjectId(i)})` query on the meetings collection. -/
def findMeeting (s : Store) (i : Nat) : Option Meeting :=
  s.meetings.find? (fun m => m.id == i)

/-! ### Client endpoints (`app/api/endpoints/clients.py`) -/

/-- The `create_client` handler: rejects a duplicate email with a 400, then
inserts.  Note the source performs no existence check on
`organisation_id` — it only converts the string to an `ObjectId`. -/
def create_client (s : Store) (client_in : ClientCreate) (now newId : Nat) :
    Result (Store × Client) :=
  match s.clients.find? (fun c => c.email == client_in.email) with
  | some _ => .error ⟨400, "A client with this email already exists."⟩
  | none =>
    let client_data : Client :=
      { id := newId
        name := client_in.name
        email := client_in.email
        phone := client_in.phone
        organisation_id := client_in.organisation_id
        notes := client_in.notes
        initial_query := client_in.initial_query
        created_at := now
        updated_at := now }
    .ok ({ s with clients := s.clients ++ [client_data] }, client_data)

/-- The `update_client` handler: 404 when absent, otherwise `$set` of the
fields present in the body (`exclude_unset`) plus a refreshed
`updated_at`; returns the post-update record. -/
def update_client (s : Store) (client_id : Nat) (client_in : ClientUpdate)
    (now : Nat) : Result (Store × Client) :=
  match findClient s client_id with
  | none => .error ⟨404, "Client not found"⟩
  | some client =>
    let client' : Client :=
      { client with
        name := client_in.name.getD client.name
        email := client_in.email.getD client.email
        phone := match client_in.phone with
          | some p => some p
          | none => client.phone
        organisation_id := match client_in.organisation_id with
          | some o => some o
          | none => client.organisation_id
        notes := match client_in.notes with
          | some n => some n
          | none => client.notes
        initial_query := match client_in.initial_query with
          | some q => some q
          | none => client.initial_query
        updated_at := now }
    .ok ({ s with clients :=
            s.clients.map (fun c => if c.id == client_id then client' else c) },
         client')

/-- The `delete_client` handler: 404 when absent, otherwise `delete_one`.
The source has no guard for projects, meetings or documents that still
reference the client. -/
def delete_client (s : Store) (client_id : Nat) : Result Store :=
  match findClient s client_id with
  | none => .error ⟨404, "Client not found"⟩
  | some _ =>
    .ok { s with clients := s.clients.eraseP (fun c => c.id == client_id) }

/-! ### Organisation endpoints (`app/api/endpoints/organisations.py`) -/

/-- The `create_organisation` handler: rejects a duplicate name with a 400,
then inserts. -/
def create_organisation (s : Store) (organisation_in : OrganisationCreate)
    (now newId : Nat) : Result (Store × Organisation) :=
  match s.organisations.find? (fun o => o.name == organisation_in.name) with
  | some _ => .error ⟨400, "An organisation with this name already exists."⟩
  | none =>
    let org_data : Organisation :=
      { id := newId
        name := organisation_in.name
        website := organisation_in.website
        industry := organisation_in.industry
        location := organisation_in.location
        social_media := organisation_in.social_media
        notes := organisation_in.notes
        created_at := now
        updated_at := now }
    .ok ({ s with organisations := s.organisations ++ [org_data] }, org_data)

/-- The `update_organisation` handler: 404 when absent, otherwise `$set` of
the supplied fields plus `updated_at`. -/
def update_organisation (s : Store) (organisation_id : Nat)
    (organisation_in : OrganisationUpdate) (now : Nat) :
    Result (Store × Organisation) :=
  match findOrganisation s organisation_id with
  | none => .error ⟨404, "Organisation not found"⟩
  | some org =>
    let org' : Organisation :=
      { org with
        name := organisation_in.name.getD org.name
        website := match organisation_in.website with
          | some w => some w
          | none => org.website
        industry := match organisation_in.industry with
          | some i => some i
          | none => org.industry
        location := match organisation_in.location with
          | some l => some l
          | none => org.location
        social_media := match organisation_in.social_media with
          | some m => some m
          | none => org.social_media
        notes := match organisation_in.notes with
          | some n => some n
          | none => org.notes
        updated_at := now }
    .ok ({ s with organisations :=
            (s.organisations.map
              (fun o => if o.id == organisation_id then org' else o)) },
         org')

/-- The `delete_organisation` handler: 404 when absent; a 400 reporting the
blocking client count when any client references the organisation;
otherwise `delete_one`. -/
def delete_organisation (s : Store) (organisation_id : Nat) : Result Store :=
  match findOrganisation s organisation_id with
  | none => .error ⟨404, "Organisation not found"⟩
  | some _ =>
    let clients_count :=
      (s.clients.filter
        (fun c => c.organisation_id == some organisation_id)).length
    if clients_count > 0 then
      .error ⟨400, "Cannot delete organisation: " ++ toString clients_count ++
        " clients are associated with it"⟩
    else
      .ok { s with organisations :=
              s.organisations.eraseP (fun o => o.id == organisation_id) }

/-! ### Project endpoints (`app/api/endpoints/projects.py`) -/

/-- The `create_project` handler: 404 when the referenced client is absent,
404 when a supplied organisation is absent, otherwise inserts. -/
def create_project (s : Store) (project_in : ProjectCreate) (now newId : Nat) :
    Result (Store × Project) :=
  match findClient s project_in.client_id with
  | none => .error ⟨404, "Client not found"⟩
  | some _ =>
    let orgCheck : Result Unit :=
      match project_in.organisation_id with
      | none => .ok ()
      | some oid =>
        match findOrganisation s oid with
        | none => .error ⟨404, "Organisation not found"⟩
        | some _ => .ok ()
    match orgCheck with
    | .error e => .error e
    | .ok _ =>
      let project_data : Project :=
        { id := newId
          title := project_in.title
          description := project_in.description
          client_id := project_in.client_id
          organisation_id := project_in.organisation_id
          status := project_in.status
          budget := project_in.budget
          start_date := project_in.start_date
          end_date := project_in.end_date
          milestones := project_in.milestones
          assessment_score := project_in.assessment_score
          notes := project_in.notes
          created_at := now
          updated_at := now }
      .ok ({ s with projects := s.projects ++ [project_data] }, project_data)

/-- The `update_project` handler: 404 when absent; re-validates a supplied
`client_id` or `organisation_id`; `$set` of the supplied fields plus
`updated_at`. -/
def update_project (s : Store) (project_id : Nat) (project_in : ProjectUpdate)
    (now : Nat) : Result (Store × Project) :=
  match findProject s project_id with
  | none => .error ⟨404, "Project not found"⟩
  | some project =>
    let clientCheck : Result Unit :=
      match project_in.client_id with
      | none => .ok ()
      | some cid =>
        match findClient s cid with
        | none => .error ⟨404, "Client not found"⟩
        | some _ => .ok ()
    match clientCheck with
    | .error e => .error e
    | .ok _ =>
      let orgCheck : Result Unit :=
        match project_in.organisation_id with
        | none => .ok ()
        | some oid =>
          match findOrganisation s oid with
          | none => .error ⟨404, "Organisation not found"⟩
          | some _ => .ok ()
      match orgCheck with
      | .error e => .error e
      | .ok _ =>
        let project' : Project :=
          { project with
            title := project_in.title.getD project.title
            description := match project_in.description with
              | some d => some d
              | none => project.description
            client_id := project_in.client_id.getD project.client_id
            organisation_id := match project_in.organisation_id with
              | some o => some o
              | none => project.organisation_id
            status := project_in.status.getD project.status
            budget := match project_in.budget with
              | some b => some b
              | none => project.budget
            start_date := match project_in.start_date with
              | some d => some d
              | none => project.start_date
            end_date := match project_in.end_date with
              | some d => some d
              | none => project.end_date
            milestones := project_in.milestones.getD project.milestones
            assessment_score := match project_in.assessment_score with
              | some a => some a
              | none => project.assessment_score
            notes := match project_in.notes with
              | some n => some n
              | none => project.notes
            updated_at := now }
        .ok ({ s with projects :=
                (s.projects.map
                  (fun p => if p.id == project_id then project' else p)) },
             project')

/-- The `delete_project` handler: 404 when absent; a 400 reporting the
blocking document count, then the blocking meeting count; otherwise
`delete_one`. -/
def delete_project (s : Store) (project_id : Nat) : Result Store :=
  match findProject s project_id with
  | none => .error ⟨404, "Project not found"⟩
  | some _ =>
    let documents_count :=
      (s.documents.filter (fun d => d.project_id == some project_id)).length
    if documents_count > 0 then
      .error ⟨400, "Cannot delete project: " ++ toString documents_count ++
        " documents are associated with it"⟩
    else
      let meetings_count :=
        (s.meetings.filter (fun m => m.project_id == some project_id)).length
      if meetings_count > 0 then
        .error ⟨400, "Cannot delete project: " ++ toString meetings_count ++
          " meetings are associated with it"⟩
      else
        .ok { s with projects :=
                s.projects.eraseP (fun p => p.id == project_id) }

/-! ### Document endpoints (`app/api/endpoints/documents.py`) -/

/-- The `create_document` handler: 404 when the referenced client (or a
supplied project) is absent; otherwise inserts with `current_version = 1`,
`signed = False`, and a single initial version built from `content`. -/
def create_document (s : Store) (document_in : DocumentCreate)
    (userId now newId : Nat) : Result (Store × Document) :=
  match findClient s document_in.client_id with
  | none => .error ⟨404, "Client not found"⟩
  | some _ =>
    let projCheck : Result Unit :=
      match document_in.project_id with
      | none => .ok ()
      | some pid =>
        match findProject s pid with
        | none => .error ⟨404, "Project not found"⟩
        | some _ => .ok ()
    match projCheck with
    | .error e => .error e
    | .ok _ =>
      let first_version : DocumentVersion :=
        { version_number := 1
          content := document_in.content
          created_by := userId
          created_at := now
          notes := some "Initial version" }
      let document_data : Document :=
        { id := newId
          title := document_in.title
          document_type := document_in.document_type
          client_id := document_in.client_id
          project_id := document_in.project_id
          status := document_in.status
          current_version := 1
          versions := [first_version]
          requires_signature := document_in.requires_signature
          signed := false
          signed_at := none
          signed_by := none
          created_by := userId
          created_at := now
          updated_at := now }
      .ok ({ s with documents := s.documents ++ [document_data] },
           document_data)

/-- The new version pushed by `update_document` when
`new_version_content` is truthy: numbered `current_version + 1`, with the
notes defaulting to `"Version n"` when `new_version_notes` is falsy. -/
def newVersionOf (doc : Document) (document_in : DocumentUpdate)
    (userId now : Nat) : DocumentVersion :=
  { version_number := doc.current_version + 1
    content := document_in.new_version_content.getD ""
    created_by := userId
    created_at := now
    notes := some (pyOrStr document_in.new_version_notes
      ("Version " ++ toString (doc.current_version + 1))) }

/-- The `update_document` handler: 404 when absent; re-validates a supplied
`client_id` or `project_id`; when `new_version_content` is truthy
(Python `if document_in.new_version_content:` — false for `None` and for
the empty string) it `$push`es a new version and includes the bumped
`current_version` in the subsequent `$set`; finally `$set`s the supplied
fields plus `updated_at` and returns the post-update record. -/
def update_document (s : Store) (document_id : Nat)
    (document_in : DocumentUpdate) (userId now : Nat) :
    Result (Store × Document) :=
  match findDocument s document_id with
  | none => .error ⟨404, "Document not found"⟩
  | some doc =>
    let clientCheck : Result Unit :=
      match document_in.client_id with
      | none => .ok ()
      | some cid =>
        match findClient s cid with
        | none => .error ⟨404, "Client not found"⟩
        | some _ => .ok ()
    match clientCheck with
    | .error e => .error e
    | .ok _ =>
      let projCheck : Result Unit :=
        match document_in.project_id with
        | none => .ok ()
        | some pid =>
          match findProject s pid with
          | none => .error ⟨404, "Project not found"⟩
          | some _ => .ok ()
      match projCheck with
      | .error e => .error e
      | .ok _ =>
        let pushVersion := optStrTruthy document_in.new_version_content
        let doc1 :=
          if pushVersion then
            { doc with versions :=
                doc.versions ++ [newVersionOf doc document_in userId now] }
          else doc
        let doc2 : Document :=
          { doc1 with
            title := document_in.title.getD doc.title
            document_type := document_in.document_type.getD doc.document_type
            client_id := document_in.client_id.getD doc.client_id
            project_id := match document_in.project_id with
              | some p => some p
              | none => doc.project_id
            status := document_in.status.getD doc.status
            requires_signature :=
              document_in.requires_signature.getD doc.requires_signature
            current_version :=
              if pushVersion then doc.current_version + 1
              else doc.current_version
            updated_at := now }
        .ok ({ s with documents :=
                (s.documents.map
                  (fun d => if d.id == document_id then doc2 else d)) },
             doc2)

/-- The `delete_document` handler: 404 when absent; a 400 when the document
is signed; otherwise `delete_one`. -/
def delete_document (s : Store) (document_id : Nat) : Result Store :=
  match findDocument s document_id with
  | none => .error ⟨404, "Document not found"⟩
  | some doc =>
    if doc.signed then
      .error ⟨400, "Cannot delete a signed document"⟩
    else
      .ok { s with documents :=
              s.documents.eraseP (fun d => d.id == document_id) }

/-- The `sign_document` handler: 404 when absent; a 400 when the document
does not require a signature; a 400 when it is already signed; otherwise
`$set`s `signed`, `signed_at`, `signed_by` and `updated_at` and returns the
post-update record. -/
def sign_document (s : Store) (document_id userId now : Nat) :
    Result (Store × Document) :=
  match findDocument s document_id with
  | none => .error ⟨404, "Document not found"⟩
  | some doc =>
    if !doc.requires_signature then
      .error ⟨400, "This document does not require a signature"⟩
    else if doc.signed then
      .error ⟨400, "This document is already signed"⟩
    else
      let doc' : Document :=
        { doc with
          signed := true
          signed_at := some now
          signed_by := some userId
          updated_at := now }
      .ok ({ s with documents :=
              (s.documents.map
                (fun d => if d.id == document_id then doc' else d)) },
           doc')

/-! ### Meeting endpoints (`app/api/endpoints/meetings.py`) -/

/-- The `create_meeting` handler: 404 when the referenced client (or a
supplied project) is absent; otherwise inserts. -/
def create_meeting (s : Store) (meeting_in : MeetingCreate) (now newId : Nat) :
    Result (Store × Meeting) :=
  match findClient s meeting_in.client_id with
  | none => .error ⟨404, "Client not found"⟩
  | some _ =>
    let projCheck : Result Unit :=
      match meeting_in.project_id with
      | none => .ok ()
      | some pid =>
        match findProject s pid with
        | none => .error ⟨404, "Project not found"⟩
        | some _ => .ok ()
    match projCheck with
    | .error e => .error e
    | .ok _ =>
      let meeting_data : Meeting :=
        { id := newId
          title := meeting_in.title
          description := meeting_in.description
          client_id := meeting_in.client_id
          project_id := meeting_in.project_id
          start_time := meeting_in.start_time
          end_time := meeting_in.end_time
          location := meeting_in.location
          virtual := meeting_in.virtual
          meeting_url := meeting_in.meeting_url
          attendees := meeting_in.attendees
          recording_url := none
          transcript := none
          key_points := []
          notes := meeting_in.notes
          created_at := now
          updated_at := now }
      .ok ({ s with meetings := s.meetings ++ [meeting_data] }, meeting_data)

/-- The `update_meeting` handler: 404 when absent; re-validates a supplied
`client_id` or `project_id`; `$set` of the supplied fields plus
`updated_at` (supplied `attendees`/`key_points` replace whole lists). -/
def update_meeting (s : Store) (meeting_id : Nat) (meeting_in : MeetingUpdate)
    (now : Nat) : Result (Store × Meeting) :=
  match findMeeting s meeting_id with
  | none => .error ⟨404, "Meeting not found"⟩
  | some meeting =>
    let clientCheck : Result Unit :=
      match meeting_in.client_id with
      | none => .ok ()
      | some cid =>
        match findClient s cid with
        | none => .error ⟨404, "Client not found"⟩
        | some _ => .ok ()
    match clientCheck with
    | .error e => .error e
    | .ok _ =>
      let projCheck : Result Unit :=
        match meeting_in.project_id with
        | none => .ok ()
        | some pid =>
          match findProject s pid with
          | none => .error ⟨404, "Project not found"⟩
          | some _ => .ok ()
      match projCheck with
      | .error e => .error e
      | .ok _ =>
        let meeting' : Meeting :=
          { meeting with
            title := meeting_in.title.getD meeting.title
            description := match meeting_in.description with
              | some d => some d
              | none => meeting.description
            client_id := meeting_in.client_id.getD meeting.client_id
            project_id := match meeting_in.project_id with
              | some p => some p
              | none => meeting.project_id
            start_time := meeting_in.start_time.getD meeting.start_time
            end_time := match meeting_in.end_time with
              | some e => some e
              | none => meeting.end_time
            location := match meeting_in.location with
              | some l => some l
              | none => meeting.location
            virtual := meeting_in.virtual.getD meeting.virtual
            meeting_url := match meeting_in.meeting_url with
              | some u => some u
              | none => meeting.meeting_url
            attendees := meeting_in.attendees.getD meeting.attendees
            recording_url := match meeting_in.recording_url with
              | some r => some r
              | none => meeting.recording_url
            transcript := match meeting_in.transcript with
              | some t => some t
              | none => meeting.transcript
            key_points := meeting_in.key_points.getD meeting.key_points
            notes := match meeting_in.notes with
              | some n => some n
              | none => meeting.notes
            updated_at := now }
        .ok ({ s with meetings :=
                (s.meetings.map
                  (fun m => if m.id == meeting_id then meeting' else m)) },
             meeting')

/-- The `delete_meeting` handler: 404 when absent, otherwise `delete_one`. -/
def delete_meeting (s : Store) (meeting_id : Nat) : Result Store :=
  match findMeeting s meeting_id with
  | none => .error ⟨404, "Meeting not found"⟩
  | some _ =>
    .ok { s with meetings := s.meetings.eraseP (fun m => m.id == meeting_id) }

/-- The `add_transcript` handler: 404 when absent, otherwise `$set`s
`transcript` (whole-field overwrite) and `updated_at`. -/
def add_transcript (s : Store) (meeting_id : Nat) (transcript : String)
    (now : Nat) : Result (Store × Meeting) :=
  match findMeeting s meeting_id with
  | none => .error ⟨404, "Meeting not found"⟩
  | some meeting =>
    let meeting' : Meeting :=
      { meeting with transcript := some transcript, updated_at := now }
    .ok ({ s with meetings :=
            (s.meetings.map
              (fun m => if m.id == meeting_id then meeting' else m)) },
         meeting')

/-- The `add_key_points` handler: 404 when absent, otherwise `$push`es the
given points onto `key_points` and `$set`s `updated_at`. -/
def add_key_points (s : Store) (meeting_id : Nat) (key_points : List KeyPoint)
    (now : Nat) : Result (Store × Meeting) :=
  match findMeeting s meeting_id with
  | none => .error ⟨404, "Meeting not found"⟩
  | some meeting =>
    let meeting' : Meeting :=
      { meeting with
        key_points := meeting.key_points ++ key_points
        updated_at := now }
    .ok ({ s with meetings :=
            (s.meetings.map
              (fun m => if m.id == meeting_id then meeting' else m)) },
         meeting')

/-- The `add_recording` handler: 404 when absent, otherwise `$set`s
`recording_url` (whole-field overwrite) and `updated_at`. -/
def add_recording (s : Store) (meeting_id : Nat) (recording_url : String)
    (now : Nat) : Result (Store × Meeting) :=
  match findMeeting s meeting_id with
  | none => .error ⟨404, "Meeting not found"⟩
  | some meeting =>
    let meeting' : Meeting :=
      { meeting with recording_url := some recording_url, updated_at := now }
    .ok ({ s with meetings :=
            (s.meetings.map
              (fun m => if m.id == meeting_id then meeting' else m)) },
         meeting')

/-! ### User service and authentication
(`app/services/user.py`, `app/api/endpoints/authentication.py`)

Password hashing (`passlib` bcrypt) and JWT signing (`python-jose`) are
external libraries with no code in this repository; they are abstracted as
function parameters `hash`, `verify` and `mkToken`. -/

/-- Exception raised by Python code that is not an `HTTPException`; it
escapes a FastAPI route handler unhandled. -/
inductive PyError where
  | valueError (msg : String)
deriving Repr, DecidableEq

/-- The `get_user_by_email` query. -/
def get_user_by_email (users : List User) (email : String) : Option User :=
  users.find? (fun u => u.email == email)

/-- The `authenticate_user` service: `None` both when no user has the email
and when the password does not verify against the stored hash. -/
def authenticate_user (verify : String → String → Bool) (users : List User)
    (email password : String) : Option User :=
  match get_user_by_email users email with
  | none => none
  | some user =>
    if !verify password user.hashed_password then none
    else some user

/-- Response body of a successful login (`schemas/token.py`). -/
structure Token where
  access_token : String
  token_type : String
deriving Repr, DecidableEq

/-- The `login_access_token` handler: a single 401 with detail
"Incorrect email or password" whenever `authenticate_user` returns `None`,
regardless of which check failed; otherwise a bearer token for the user
id. -/
def login_access_token (verify : String → String → Bool)
    (mkToken : Nat → String) (users : List User) (username password : String) :
    Result Token :=
  match authenticate_user verify users username password with
  | none => .error ⟨401, "Incorrect email or password"⟩
  | some user => .ok ⟨mkToken user.id, "bearer"⟩

/-- The `create_user` service: raises `ValueError("Email already
registered")` — not an `HTTPException` — when the email is taken;
otherwise inserts with `is_active = True` and `is_admin = False`. -/
def create_user (hash : String → String) (s : Store) (user_in : UserCreate)
    (newId : Nat) : Except PyError (Store × User) :=
  match get_user_by_email s.users user_in.email with
  | some _ => .error (.valueError "Email already registered")
  | none =>
    let user_data : User :=
      { id := newId
        email := user_in.email
        first_name := user_in.first_name
        last_name := user_in.last_name
        hashed_password := hash user_in.password
        is_active := true
        is_admin := false }
    .ok ({ s with users := s.users ++ [user_data] }, user_data)

/-- The `register_user` handler: calls `create_user` with no try/except, so
a `PyError` propagates out of the handler rather than being converted to an
`HTTPException` response. -/
def register_user (hash : String → String) (s : Store) (user_in : UserCreate)
    (newId : Nat) : Except PyError (Store × User) :=
  create_user hash s user_in newId

/-- HTTP response as seen by the caller of a route. -/
structure HttpResponse where
  status : Nat
  body : String
deriving Repr, DecidableEq

/-- FastAPI response mapping for `POST /auth/register`: an
`HTTPException` would become a JSON response carrying its status and
detail, but `register_user` raises none; an exception of any other type
(here `PyError`) escapes the handler and Starlette answers with a plain
500 Internal Server Error. -/
def respond_register (hash : String → String) (s : Store)
    (user_in : UserCreate) (newId : Nat) : HttpResponse × Store :=
  match register_user hash s user_in newId with
  | .ok (s', user) => (⟨200, user.email⟩, s')
  | .error (.valueError _) => (⟨500, "Internal Server Error"⟩, s)

/-! ### Sequences of API operations

One mutating API call per constructor.  Read-only routes (`GET`) never
change the store and are omitted.  `step` applies one call: a raised
exception leaves the store untouched (every endpoint raises before its
first write).  Fresh `_id`s for inserts are generated by `freshId`,
mirroring the driver-generated `ObjectId` of `insert_one` (Mongo enforces
a unique index on `_id`, so a colliding insert cannot occur). -/

/-- A mutating API call together with its request data. -/
inductive Op where
  | createOrganisation (input : OrganisationCreate) (now : Nat)
  | updateOrganisation (id : Nat) (input : OrganisationUpdate) (now : Nat)
  | deleteOrganisation (id : Nat)
  | createClient (input : ClientCreate) (now : Nat)
  | updateClient (id : Nat) (input : ClientUpdate) (now : Nat)
  | deleteClient (id : Nat)
  | createProject (input : ProjectCreate) (now : Nat)
  | updateProject (id : Nat) (input : ProjectUpdate) (now : Nat)
  | deleteProject (id : Nat)
  | createDocument (input : DocumentCreate) (userId now : Nat)
  | updateDocument (id : Nat) (input : DocumentUpdate) (userId now : Nat)
  | deleteDocument (id : Nat)
  | signDocument (id userId now : Nat)
  | createMeeting (input : MeetingCreate) (now : Nat)
  | updateMeeting (id : Nat) (input : MeetingUpdate) (now : Nat)
  | deleteMeeting (id : Nat)
  | addTranscript (id : Nat) (transcript : String) (now : Nat)
  | addKeyPoints (id : Nat) (points : List KeyPoint) (now : Nat)
  | addRecording (id : Nat) (url : String) (now : Nat)
  | registerUser (input : UserCreate)
deriving Repr, DecidableEq

/-- Every `_id` present in the store, across all collections. -/
def Store.allIds (s : Store) : List Nat :=
  s.users.map User.id ++ s.organisations.map Organisation.id ++
  s.clients.map Client.id ++ s.projects.map Project.id ++
  s.documents.map Document.id ++ s.meetings.map Meeting.id

/-- A fresh `_id` for an insert: strictly larger than every id in the
store, as the driver-generated `ObjectId` is always new. -/
def freshId (s : Store) : Nat := s.allIds.foldr max 0 + 1

/-- Drop the returned record, keep the store; an exception leaves the
store unchanged. -/
def stateOf (s : Store) : Result (Store × α) → Store
  | .ok (s', _) => s'
  | .error _ => s

/-- Same for handlers whose success value is the store alone. -/
def stateOfD (s : Store) : Result Store → Store
  | .ok s' => s'
  | .error _ => s

/-- Apply one mutating API call to the store. -/
def step (hash : String → String) (s : Store) : Op → Store
  | .createOrganisation input now =>
      stateOf s (create_organisation s input now (freshId s))
  | .updateOrganisation id input now =>
      stateOf s (update_organisation s id input now)
  | .deleteOrganisation id => stateOfD s (delete_organisation s id)
  | .createClient input now =>
      stateOf s (create_client s input now (freshId s))
  | .updateClient id input now => stateOf s (update_client s id input now)
  | .deleteClient id => stateOfD s (delete_client s id)
  | .createProject input now =>
      stateOf s (create_project s input now (freshId s))
  | .updateProject id input now => stateOf s (update_project s id input now)
  | .deleteProject id => stateOfD s (delete_project s id)
  | .createDocument input userId now =>
      stateOf s (create_document s input userId now (freshId s))
  | .updateDocument id input userId now =>
      stateOf s (update_document s id input userId now)
  | .deleteDocument id => stateOfD s (delete_document s id)
  | .signDocument id userId now => stateOf s (sign_document s id userId now)
  | .createMeeting input now =>
      stateOf s (create_meeting s input now (freshId s))
  | .updateMeeting id input now => stateOf s (update_meeting s id input now)
  | .deleteMeeting id => stateOfD s (delete_meeting s id)
  | .addTranscript id transcript now =>
      stateOf s (add_transcript s id transcript now)
  | .addKeyPoints id points now => stateOf s (add_key_points s id points now)
  | .addRecording id url now => stateOf s (add_recording s id url now)
  | .registerUser input =>
      match register_user hash s input (freshId s) with
      | .ok (s', _) => s'
      | .error _ => s

/-- Apply a sequence of mutating API calls, left to right. -/
def applyOps (hash : String → String) (s : Store) : List Op → Store
  | [] => s
  | op :: ops => applyOps hash (step hash s op) ops

/-! ### General list helpers

Mongo keeps a unique index on `_id`, so each collection's id list has no
duplicates; these lemmas relate `find?`, `eraseP` and pointwise
replacement on such lists. -/

/-- In a list whose `f`-images are distinct, searching for the image of a
member finds exactly that member. -/
theorem find?_eq_of_mem_of_nodup {α : Type} (f : α → Nat) :
    ∀ (l : List α), (l.map f).Nodup → ∀ a ∈ l,
      l.find? (fun x => f x == f a) = some a := by
  intro l
  induction l with
  | nil => intro _ a ha; cases ha
  | cons b t ih =>
    intro hnd a ha
    rw [List.map_cons, List.nodup_cons] at hnd
    rcases List.mem_cons.mp ha with rfl | hat
    · simp [List.find?_cons]
    · have hne : f b ≠ f a := by
        intro hEq
        exact hnd.1 (hEq ▸ List.mem_map_of_mem f hat)
      have hb : (f b == f a) = false := by
        simpa using hne
      rw [List.find?_cons, hb]
      exact ih hnd.2 a hat

/-- An element that does not satisfy `p` survives `eraseP p`. -/
theorem mem_eraseP_of_mem {α : Type} (p : α → Bool) :
    ∀ (l : List α) (a : α), a ∈ l → p a = false → a ∈ l.eraseP p := by
  intro l
  induction l with
  | nil => intro a ha; cases ha
  | cons b t ih =>
    intro a ha hpa
    rcases List.mem_cons.mp ha with rfl | hat
    · rw [List.eraseP_cons, hpa]
      simp only [cond_false]
      exact List.mem_cons_self a _
    · rw [List.eraseP_cons]
      cases hpb : p b with
      | true => simpa using hat
      | false => simpa using Or.inr (ih a hat hpa)

/-- After erasing the unique element with `f`-image `k`, no element with
image `k` remains. -/
theorem find?_eraseP_none {α : Type} (f : α → Nat) (k : Nat) :
    ∀ (l : List α), (l.map f).Nodup →
      (l.eraseP (fun x => f x == k)).find? (fun x => f x == k) = none := by
  intro l
  induction l with
  | nil => intro _; simp
  | cons b t ih =>
    intro hnd
    rw [List.map_cons, List.nodup_cons] at hnd
    rw [List.eraseP_cons]
    cases hpb : (f b == k) with
    | true =>
      simp only [cond_true]
      rw [List.find?_eq_none]
      intro x hx hpx
      have hbk : f b = k := by simpa using hpb
      have hxk : f x = k := by simpa using hpx
      exact hnd.1 ((hbk.trans hxk.symm) ▸ List.mem_map_of_mem f hx)
    | false =>
      simp only [cond_false]
      rw [List.find?_cons, hpb]
      exact ih hnd.2

/-- Replacing the elements with `f`-image `k` by a record with the same
image leaves the image list unchanged. -/
theorem map_f_replace {α : Type} (f : α → Nat) (k : Nat) (r : α)
    (hr : f r = k) :
    ∀ l : List α,
      (l.map (fun x => if f x == k then r else x)).map f = l.map f := by
  intro l
  induction l with
  | nil => rfl
  | cons b t ih =>
    simp only [List.map_cons, ih]
    cases hpb : (f b == k) with
    | true =>
      have : f b = k := by simpa using hpb
      simp [hpb, hr, this]
    | false => simp [hpb]

/-- Pointwise replacement puts the replacement in the list as soon as some
member satisfies the predicate. -/
theorem mem_map_replace_self {α : Type} (l : List α) (p : α → Bool) (r a : α)
    (ha : a ∈ l) (hp : p a = true) :
    r ∈ l.map (fun x => if p x then r else x) := by
  have h := List.mem_map_of_mem (fun x => if p x then r else x) ha
  simpa [hp] using h

/-- Every element is bounded by the running maximum. -/
theorem le_foldr_max : ∀ (l : List Nat), ∀ x ∈ l, x ≤ l.foldr max 0 := by
  intro l
  induction l with
  | nil => intro x hx; cases hx
  | cons b t ih =>
    intro x hx
    rcases List.mem_cons.mp hx with rfl | hxt
    · exact le_max_left _ _
    · exact le_trans (ih x hxt) (le_max_right _ _)

/-- The generated id of an insert is not present anywhere in the store. -/
theorem freshId_not_mem (s : Store) : freshId s ∉ s.allIds := by
  intro hmem
  have h := le_foldr_max s.allIds _ hmem
  simp only [freshId] at h
  omega

/-! ### Concrete fixtures, shared by witnesses and counterexamples -/

/-- A registered user. -/
def aliceUser : User :=
  ⟨6, "alice@example.com", "Alice", "Smith", "hashedpw", true, false⟩

/-- A stored organisation. -/
def acmeOrg : Organisation :=
  ⟨2, "Acme", none, none, none, none, none, 0, 0⟩

/-- A stored client (no organisation link). -/
def bobClient : Client :=
  ⟨1, "Bob", "bob@example.com", none, none, none, none, 0, 0⟩

/-- A stored client linked to `acmeOrg`. -/
def carolClient : Client :=
  ⟨7, "Carol", "carol@example.com", none, some 2, none, none, 0, 0⟩

/-- A stored project for `bobClient`. -/
def surveyProject : Project :=
  ⟨5, "Site survey", none, 1, none, "assessment", none, none, none, [],
   none, none, 0, 0⟩

/-- A stored unsigned document that requires a signature, with one
version. -/
def contractDoc : Document :=
  ⟨3, "Contract", "contract", 1, none, "draft", 1,
   [⟨1, "hello", 7, 0, some "Initial version"⟩], true, false, none, none,
   7, 0, 0⟩

/-- A stored signed document. -/
def signedDoc : Document :=
  ⟨4, "NDA", "nda", 1, none, "final", 1,
   [⟨1, "terms", 7, 0, some "Initial version"⟩], true, true, some 1, some 6,
   7, 0, 0⟩

/-- A store holding all the fixtures. -/
def fixStore : Store :=
  ⟨[aliceUser], [acmeOrg], [bobClient, carolClient], [surveyProject],
   [contractDoc, signedDoc], []⟩

/-! ### C4 — client creation guards -/

/-- C4 counterexample: the store holds no organisation at all, yet
creating a client whose body carries `organisation_id = 5` does not fail
with a 404 — it succeeds and stores the dangling reference, because
`create_client` never looks up the organisation. -/
theorem create_client_dangling_org_cex :
    emptyStore.organisations = [] ∧
    create_client emptyStore ⟨"Bob", "bob@example.com", none, some 5, none,
        none⟩ 0 1 =
      Except.ok
        (⟨[], [], [⟨1, "Bob", "bob@example.com", none, some 5, none, none,
            0, 0⟩], [], [], []⟩,
         ⟨1, "Bob", "bob@example.com", none, some 5, none, none, 0, 0⟩) :=
  ⟨rfl, rfl⟩

/-- C4 (amended): creating a client with the email of a stored client
fails with a 400 Conflict and inserts nothing; when the email is new the
creation succeeds no matter what `organisation_id` carries — the
organisation reference is stored without any existence check. -/
theorem create_client_guards (s : Store) (input : ClientCreate)
    (now newId : Nat) :
    (∀ c, c ∈ s.clients → c.email = input.email →
      create_client s input now newId =
        .error ⟨400, "A client with this email already exists."⟩ ∧
      stateOf s (create_client s input now newId) = s) ∧
    (s.clients.find? (fun c => c.email == input.email) = none →
      ∃ s' c', create_client s input now newId = .ok (s', c') ∧
        s'.clients = s.clients ++ [c'] ∧
        c'.organisation_id = input.organisation_id) := by
  constructor
  · intro c hc he
    cases hfind : s.clients.find? (fun x => x.email == input.email) with
    | none =>
      have := List.find?_eq_none.mp hfind c hc
      simp [he] at this
    | some c0 =>
      constructor
      · simp [create_client, hfind]
      · simp [stateOf, create_client, hfind]
  · intro hfind
    have hok : create_client s input now newId = .ok
        ({ s with clients := s.clients ++
            [⟨newId, input.name, input.email, input.phone,
              input.organisation_id, input.notes, input.initial_query,
              now, now⟩] },
         ⟨newId, input.name, input.email, input.phone,
          input.organisation_id, input.notes, input.initial_query,
          now, now⟩) := by
      simp [create_client, hfind]
    exact ⟨_, _, hok, rfl, rfl⟩

/-- C4 witness: on the fixture store the duplicate-email request is
rejected with the 400, and on the empty store a dangling
`organisation_id = 5` is accepted. -/
theorem create_client_guards_witness :
    create_client fixStore ⟨"Bobby", "bob@example.com", none, none, none,
        none⟩ 0 9 =
      Except.error ⟨400, "A client with this email already exists."⟩ ∧
    ∃ s' c', create_client emptyStore ⟨"Dana", "dana@example.com", none,
        some 5, none, none⟩ 0 1 = Except.ok (s', c') ∧
      s'.clients = emptyStore.clients ++ [c'] ∧
      c'.organisation_id = some 5 :=
  ⟨((create_client_guards fixStore ⟨"Bobby", "bob@example.com", none, none,
      none, none⟩ 0 9).1 bobClient (by decide) rfl).1,
   (create_client_guards emptyStore ⟨"Dana", "dana@example.com", none,
      some 5, none, none⟩ 0 1).2 rfl⟩

/-! ### C5 — organisation deletion guard -/

/-- C5: deleting a stored organisation fails with a 400 whose detail
string reports the number of referencing clients whenever that number is
positive, and the store is left unchanged; with zero referencing clients
the deletion succeeds, after which no organisation with that id remains
and every other collection is untouched. -/
theorem delete_organisation_guard (s : Store) (oid : Nat) (o : Organisation)
    (hnd : (s.organisations.map Organisation.id).Nodup)
    (ho : findOrganisation s oid = some o) :
    (0 < (s.clients.filter
        (fun c => c.organisation_id == some oid)).length →
      delete_organisation s oid = .error ⟨400,
        "Cannot delete organisation: " ++
        toString (s.clients.filter
          (fun c => c.organisation_id == some oid)).length ++
        " clients are associated with it"⟩ ∧
      stateOfD s (delete_organisation s oid) = s) ∧
    ((s.clients.filter (fun c => c.organisation_id == some oid)).length
        = 0 →
      ∃ s', delete_organisation s oid = .ok s' ∧
        findOrganisation s' oid = none ∧
        s'.users = s.users ∧ s'.clients = s.clients ∧
        s'.projects = s.projects ∧ s'.documents = s.documents ∧
        s'.meetings = s.meetings) := by
  constructor
  · intro hpos
    have herr : delete_organisation s oid = .error ⟨400,
        "Cannot delete organisation: " ++
        toString (s.clients.filter
          (fun c => c.organisation_id == some oid)).length ++
        " clients are associated with it"⟩ := by
      simp only [delete_organisation, ho]
      rw [if_pos hpos]
    exact ⟨herr, by simp only [herr, stateOfD]⟩
  · intro hzero
    have hok : delete_organisation s oid = .ok
        { s with organisations :=
            s.organisations.eraseP (fun x => x.id == oid) } := by
      simp only [delete_organisation, ho]
      rw [if_neg (by omega)]
    refine ⟨_, hok, ?_, rfl, rfl, rfl, rfl, rfl⟩
    exact find?_eraseP_none Organisation.id oid s.organisations hnd

/-- C5 witness: on the fixture store, deleting `acmeOrg` (referenced by
one client) yields the 400 that reports the count 1; after that client is
gone the deletion of `acmeOrg` succeeds and removes it. -/
theorem delete_organisation_guard_witness :
    delete_organisation fixStore 2 = Except.error ⟨400,
      "Cannot delete organisation: 1 clients are associated with it"⟩ ∧
    ∃ s', delete_organisation
        { fixStore with clients := [bobClient] } 2 = Except.ok s' ∧
      findOrganisation s' 2 = none :=
  ⟨((delete_organisation_guard fixStore 2 acmeOrg (by decide)
      (by decide)).1 (by decide)).1,
   by
    obtain ⟨s', h1, h2, _⟩ :=
      (delete_organisation_guard { fixStore with clients := [bobClient] } 2
        acmeOrg (by decide) (by decide)).2 (by decide)
    exact ⟨s', h1, h2⟩⟩

/-! ### C6 — project deletion guard -/

/-- C6: deleting a stored project fails with a 400 Conflict whenever at
least one document or at least one meeting references it, and the store is
left unchanged; with no referencing document and no referencing meeting
the deletion succeeds, after which no project with that id remains and
every other collection is untouched. -/
theorem delete_project_guard (s : Store) (pid : Nat) (p : Project)
    (hnd : (s.projects.map Project.id).Nodup)
    (hp : findProject s pid = some p) :
    ((0 < (s.documents.filter
        (fun d => d.project_id == some pid)).length ∨
      0 < (s.meetings.filter
        (fun m => m.project_id == some pid)).length) →
      (∃ detail, delete_project s pid = .error ⟨400, detail⟩) ∧
      stateOfD s (delete_project s pid) = s) ∧
    ((s.documents.filter (fun d => d.project_id == some pid)).length = 0 →
     (s.meetings.filter (fun m => m.project_id == some pid)).length = 0 →
      ∃ s', delete_project s pid = .ok s' ∧
        findProject s' pid = none ∧
        s'.users = s.users ∧ s'.organisations = s.organisations ∧
        s'.clients = s.clients ∧ s'.documents = s.documents ∧
        s'.meetings = s.meetings) := by
  constructor
  · intro hpos
    by_cases hdoc :
        0 < (s.documents.filter (fun d => d.project_id == some pid)).length
    · have herr : delete_project s pid = .error ⟨400,
          "Cannot delete project: " ++
          toString (s.documents.filter
            (fun d => d.project_id == some pid)).length ++
          " documents are associated with it"⟩ := by
        simp only [delete_project, hp]
        rw [if_pos hdoc]
      exact ⟨⟨_, herr⟩, by simp only [herr, stateOfD]⟩
    · have hmeet :
          0 < (s.meetings.filter
            (fun m => m.project_id == some pid)).length := by
        rcases hpos with h | h
        · exact absurd h hdoc
        · exact h
      have herr : delete_project s pid = .error ⟨400,
          "Cannot delete project: " ++
          toString (s.meetings.filter
            (fun m => m.project_id == some pid)).length ++
          " meetings are associated with it"⟩ := by
        simp only [delete_project, hp]
        rw [if_neg hdoc, if_pos hmeet]
      exact ⟨⟨_, herr⟩, by simp only [herr, stateOfD]⟩
  · intro hdoc hmeet
    have hok : delete_project s pid = .ok
        { s with projects := s.projects.eraseP (fun x => x.id == pid) } := by
      simp only [delete_project, hp]
      rw [if_neg (by omega), if_neg (by omega)]
    refine ⟨_, hok, ?_, rfl, rfl, rfl, rfl, rfl⟩
    exact find?_eraseP_none Project.id pid s.projects hnd

/-- C6 witness: on the fixture store, deleting the project once a document
references it yields a 400, and deleting it in the fixture store itself
(no document or meeting references it) succeeds and removes it. -/
theorem delete_project_guard_witness :
    (∃ detail, delete_project
        { fixStore with documents :=
            [{ contractDoc with project_id := some 5 }] } 5 =
      Except.error ⟨400, detail⟩) ∧
    ∃ s', delete_project fixStore 5 = Except.ok s' ∧
      findProject s' 5 = none :=
  ⟨((delete_project_guard
      { fixStore with documents :=
          [{ contractDoc with project_id := some 5 }] } 5 surveyProject
      (by decide) (by decide)).1 (Or.inl (by decide))).1,
   by
    obtain ⟨s', h1, h2, _⟩ :=
      (delete_project_guard fixStore 5 surveyProject (by decide)
        (by decide)).2 (by decide) (by decide)
    exact ⟨s', h1, h2⟩⟩

/-! ### C7 — partial update of a client -/

/-- C7: updating a stored client with a body that supplies only `notes`
leaves name, email, phone, organisation reference, initial query and
creation timestamp unchanged, sets the notes, refreshes `updated_at`, and
returns the post-update record, which is also the stored one. -/
theorem update_client_notes_only (s : Store) (cid : Nat) (c : Client)
    (upd : ClientUpdate) (now : Nat) (x : String)
    (hc : findClient s cid = some c)
    (hname : upd.name = none) (hemail : upd.email = none)
    (hphone : upd.phone = none) (horg : upd.organisation_id = none)
    (hquery : upd.initial_query = none) (hnotes : upd.notes = some x) :
    ∃ s' c', update_client s cid upd now = .ok (s', c') ∧
      c'.name = c.name ∧ c'.email = c.email ∧ c'.phone = c.phone ∧
      c'.organisation_id = c.organisation_id ∧
      c'.initial_query = c.initial_query ∧ c'.created_at = c.created_at ∧
      c'.notes = some x ∧ c'.updated_at = now ∧ c' ∈ s'.clients := by
  have hok : update_client s cid upd now = .ok
      ({ s with clients := (s.clients.map (fun y => if y.id == cid then { c with notes := some x, updated_at := now } else y)) },
       { c with notes := some x, updated_at := now }) := by
    simp [update_client, hc, hname, hemail, hphone, horg, hquery, hnotes]
  refine ⟨_, _, hok, rfl, rfl, rfl, rfl, rfl, rfl, rfl, rfl, ?_⟩
  have hc' : s.clients.find? (fun y => y.id == cid) = some c := hc
  have hmem : c ∈ s.clients := List.mem_of_find?_eq_some hc'
  have hpred := List.find?_some hc'
  have hmap := List.mem_map_of_mem
    (fun y => if y.id == cid then ({ c with notes := some x, updated_at := now } : Client) else y) hmem
  simpa [hpred] using hmap

/-- C7 witness: supplying only notes to the fixture client leaves the
identity fields in place and refreshes the update stamp. -/
theorem update_client_notes_only_witness :
    ∃ s' c', update_client fixStore 1
        ⟨none, none, none, none, some "call back", none⟩ 9 = Except.ok (s', c') ∧
      c'.name = bobClient.name ∧ c'.email = bobClient.email ∧
      c'.phone = bobClient.phone ∧
      c'.organisation_id = bobClient.organisation_id ∧
      c'.initial_query = bobClient.initial_query ∧
      c'.created_at = bobClient.created_at ∧
      c'.notes = some "call back" ∧ c'.updated_at = 9 ∧ c' ∈ s'.clients :=
  update_client_notes_only fixStore 1 bobClient
    ⟨none, none, none, none, some "call back", none⟩ 9 "call back"
    (by decide) rfl rfl rfl rfl rfl rfl

/-! ### C8 — login does not reveal which check failed -/

/-- C8: a login whose email matches no stored user and a login whose email
matches a stored user but whose password fails verification produce the
same 401 response, status and detail alike, for any password verifier and
token maker. -/
theorem login_failures_identical (verify : String → String → Bool)
    (mkToken : Nat → String) (users1 users2 : List User)
    (e1 p1 e2 p2 : String) (u : User)
    (h1 : get_user_by_email users1 e1 = none)
    (h2 : get_user_by_email users2 e2 = some u)
    (hv : verify p2 u.hashed_password = false) :
    login_access_token verify mkToken users1 e1 p1 =
      .error ⟨401, "Incorrect email or password"⟩ ∧
    login_access_token verify mkToken users2 e2 p2 =
      .error ⟨401, "Incorrect email or password"⟩ ∧
    login_access_token verify mkToken users1 e1 p1 =
      login_access_token verify mkToken users2 e2 p2 := by
  have ha : login_access_token verify mkToken users1 e1 p1 =
      .error ⟨401, "Incorrect email or password"⟩ := by
    simp [login_access_token, authenticate_user, h1]
  have hb : login_access_token verify mkToken users2 e2 p2 =
      .error ⟨401, "Incorrect email or password"⟩ := by
    simp [login_access_token, authenticate_user, h2, hv]
  exact ⟨ha, hb, ha.trans hb.symm⟩

/-- C8 witness: with an equality-based verifier, the unknown email and the
wrong password against the fixture user both yield the one 401 response. -/
theorem login_failures_identical_witness :
    login_access_token (fun p h => p == h) toString [aliceUser]
        "nobody@example.com" "pw" =
      Except.error ⟨401, "Incorrect email or password"⟩ ∧
    login_access_token (fun p h => p == h) toString [aliceUser]
        "alice@example.com" "wrongpassword" =
      Except.error ⟨401, "Incorrect email or password"⟩ ∧
    login_access_token (fun p h => p == h) toString [aliceUser]
        "nobody@example.com" "pw" =
      login_access_token (fun p h => p == h) toString [aliceUser]
        "alice@example.com" "wrongpassword" :=
  login_failures_identical (fun p h => p == h) toString [aliceUser]
    [aliceUser] "nobody@example.com" "pw" "alice@example.com"
    "wrongpassword" aliceUser (by decide) (by decide) (by decide)

/-! ### C2 — signing a document -/

/-- C2: signing answers 404 when no document has the id; on a stored
document it succeeds exactly when the document requires a signature and is
not yet signed, recording the signer and the timestamp; it answers a 400
Conflict whenever the document is already signed or does not require a
signature. -/
theorem sign_document_spec (s : Store) (did userId now : Nat) :
    (findDocument s did = none →
      sign_document s did userId now =
        .error ⟨404, "Document not found"⟩) ∧
    (∀ d, findDocument s did = some d →
      ((d.requires_signature = true ∧ d.signed = false) →
        ∃ s' d', sign_document s did userId now = .ok (s', d') ∧
          d'.signed = true ∧ d'.signed_by = some userId ∧
          d'.signed_at = some now) ∧
      ((d.signed = true ∨ d.requires_signature = false) →
        ∃ detail, sign_document s did userId now =
          .error ⟨400, detail⟩)) := by
  constructor
  · intro hnone
    simp [sign_document, hnone]
  · intro d hd
    constructor
    · rintro ⟨hreq, hsig⟩
      have hok : sign_document s did userId now = .ok
          ({ s with documents := (s.documents.map (fun y => if y.id == did then { d with signed := true, signed_at := some now, signed_by := some userId, updated_at := now } else y)) },
           { d with signed := true, signed_at := some now, signed_by := some userId, updated_at := now }) := by
        simp [sign_document, hd, hreq, hsig]
      exact ⟨_, _, hok, rfl, rfl, rfl⟩
    · intro hfail
      by_cases hreq : d.requires_signature = true
      · have hsig : d.signed = true := by
          rcases hfail with h | h
          · exact h
          · exact absurd hreq (by simp [h])
        exact ⟨"This document is already signed",
          by simp [sign_document, hd, hreq, hsig]⟩
      · exact ⟨"This document does not require a signature",
          by simp [sign_document, hd, Bool.not_eq_true .. ▸ hreq]⟩

/-- C2 witness: the missing id answers 404; the unsigned
signature-requiring fixture document gets signed with signer and
timestamp; the already-signed fixture document answers a 400. -/
theorem sign_document_spec_witness :
    sign_document emptyStore 3 6 9 =
      Except.error ⟨404, "Document not found"⟩ ∧
    (∃ s' d', sign_document fixStore 3 6 9 = Except.ok (s', d') ∧
      d'.signed = true ∧ d'.signed_by = some 6 ∧ d'.signed_at = some 9) ∧
    ∃ detail, sign_document fixStore 4 6 9 = Except.error ⟨400, detail⟩ :=
  ⟨(sign_document_spec emptyStore 3 6 9).1 rfl,
   ((sign_document_spec fixStore 3 6 9).2 contractDoc (by decide)).1
     ⟨rfl, rfl⟩,
   ((sign_document_spec fixStore 4 6 9).2 signedDoc (by decide)).2
     (Or.inl rfl)⟩

/-! ### C10 — duplicate registration escapes as an unhandled exception -/

/-- C10 evaluation: registering the fixture user's email again makes
`create_user` raise `ValueError("Email already registered")`, which
`register_user` does not catch; the caller therefore receives a plain 500
rather than a structured 400 Conflict JSON body, and no user is
inserted. -/
theorem register_duplicate_email_unhandled :
    register_user (fun p => p) fixStore
        ⟨"alice@example.com", "Alice", "Again", "pw"⟩ 9 =
      Except.error (PyError.valueError "Email already registered") ∧
    respond_register (fun p => p) fixStore
        ⟨"alice@example.com", "Alice", "Again", "pw"⟩ 9 =
      (⟨500, "Internal Server Error"⟩, fixStore) :=
  ⟨rfl, rfl⟩

/-! ### C1 — document update appends one version -/

/-- C1 (amended: non-empty content): whenever a document update whose body
carries a non-empty `new_version_content` succeeds on a stored document,
the result holds the old version list plus exactly one appended entry
numbered `current_version + 1` with that content, author and timestamp,
`current_version` is bumped to the new number, every previously stored
version entry is unchanged, and the result is the stored record. -/
theorem update_document_appends_one_version (s : Store) (did : Nat)
    (input : DocumentUpdate) (userId now : Nat) (doc : Document)
    (hd : findDocument s did = some doc) (content : String)
    (hc : input.new_version_content = some content) (hne : content ≠ "")
    (s' : Store) (d' : Document)
    (hok : update_document s did input userId now = .ok (s', d')) :
    d'.current_version = doc.current_version + 1 ∧
    d'.versions = doc.versions ++
      [⟨doc.current_version + 1, content, userId, now,
        some (pyOrStr input.new_version_notes
          ("Version " ++ toString (doc.current_version + 1)))⟩] ∧
    d' ∈ s'.documents := by
  have htr : optStrTruthy input.new_version_content = true := by
    simp [optStrTruthy, hc, hne]
  simp only [update_document, hd, htr, if_true] at hok
  split at hok
  · exact absurd hok (by simp)
  · split at hok
    · exact absurd hok (by simp)
    · simp only [Except.ok.injEq, Prod.mk.injEq] at hok
      obtain ⟨hs', hd'⟩ := hok
      subst hs' hd'
      refine ⟨rfl, ?_, ?_⟩
      · simp [newVersionOf, hc]
      · have hfind : s.documents.find? (fun y => y.id == did) = some doc := hd
        have hmem : doc ∈ s.documents := List.mem_of_find?_eq_some hfind
        have hpred := List.find?_some hfind
        exact mem_map_replace_self _ _ _ _ hmem hpred

/-- The fixture contract after a successful update appending content
"v2". -/
def v2Doc : Document :=
  { contractDoc with
    current_version := 2
    versions := contractDoc.versions ++ [⟨2, "v2", 7, 5, some "Version 2"⟩]
    updated_at := 5 }

/-- The fixture store after that update. -/
def v2Store : Store := { fixStore with documents := [v2Doc, signedDoc] }

/-- C1 witness: appending "v2" to the fixture contract bumps
`current_version` from 1 to 2 and appends the single matching version
entry, keeping version 1 byte-identical. -/
theorem update_document_appends_one_version_witness :
    v2Doc.current_version = contractDoc.current_version + 1 ∧
    v2Doc.versions = contractDoc.versions ++
      [⟨contractDoc.current_version + 1, "v2", 7, 5,
        some (pyOrStr none
          ("Version " ++ toString (contractDoc.current_version + 1)))⟩] ∧
    v2Doc ∈ v2Store.documents :=
  update_document_appends_one_version fixStore 3
    ⟨none, none, none, none, none, none, some "v2", none⟩ 7 5 contractDoc
    (by decide) "v2" rfl (by decide) v2Store v2Doc rfl

/-- A document update whose body carries `new_version_content` as the
empty string. -/
def emptyContentInput : DocumentUpdate :=
  ⟨none, none, none, none, none, none, some "", none⟩

/-- The fixture contract after the empty-content update: only
`updated_at` moves. -/
def touchedDoc : Document := { contractDoc with updated_at := 5 }

/-- The fixture store after the empty-content update. -/
def touchedStore : Store :=
  { fixStore with documents := [touchedDoc, signedDoc] }

/-- C1 counterexample: an update request that does carry
`new_version_content` — the empty string — appends nothing and leaves
`current_version` at 1, because the handler tests the field with Python
truthiness (`if document_in.new_version_content:`), which is false for
`""`. -/
theorem update_document_empty_content_cex :
    update_document fixStore 3 emptyContentInput 7 5 =
      Except.ok (touchedStore, touchedDoc) ∧
    touchedDoc.versions = contractDoc.versions ∧
    touchedDoc.current_version = contractDoc.current_version :=
  ⟨rfl, rfl, rfl⟩

/-! ### Frame lemmas: which operations can touch the documents
collection -/

/-- A handler whose success states keep the documents collection keeps it
through `stateOf` as well. -/
theorem stateOf_documents_eq {α : Type} (s : Store)
    (r : Result (Store × α))
    (h : ∀ s' x, r = .ok (s', x) → s'.documents = s.documents) :
    (stateOf s r).documents = s.documents := by
  cases r with
  | ok p => exact h p.1 p.2 rfl
  | error e => rfl

/-- Same, for handlers returning the store alone. -/
theorem stateOfD_documents_eq (s : Store) (r : Result Store)
    (h : ∀ s', r = .ok s' → s'.documents = s.documents) :
    (stateOfD s r).documents = s.documents := by
  cases r with
  | ok s' => exact h s' rfl
  | error e => rfl

/-- Client creation never touches the documents collection. -/
theorem create_client_documents (s : Store) (input : ClientCreate)
    (now newId : Nat) :
    (stateOf s (create_client s input now newId)).documents =
      s.documents := by
  apply stateOf_documents_eq
  intro s' x h
  unfold create_client at h
  all_goals try simp only [] at h
  all_goals try split at h
  all_goals try simp only [] at h
  all_goals try split at h
  all_goals try simp only [] at h
  all_goals try split at h
  all_goals try simp only [] at h
  all_goals try split at h
  all_goals simp_all
  all_goals (first
    | (obtain ⟨h1, h2⟩ := h; subst h1; rfl)
    | (subst h; rfl))

/-- Client update never touches the documents collection. -/
theorem update_client_documents (s : Store) (cid : Nat)
    (input : ClientUpdate) (now : Nat) :
    (stateOf s (update_client s cid input now)).documents = s.documents := by
  apply stateOf_documents_eq
  intro s' x h
  unfold update_client at h
  all_goals try simp only [] at h
  all_goals try split at h
  all_goals try simp only [] at h
  all_goals try split at h
  all_goals try simp only [] at h
  all_goals try split at h
  all_goals try simp only [] at h
  all_goals try split at h
  all_goals simp_all
  all_goals (first
    | (obtain ⟨h1, h2⟩ := h; subst h1; rfl)
    | (subst h; rfl))

/-- Client deletion never touches the documents collection. -/
theorem delete_client_documents (s : Store) (cid : Nat) :
    (stateOfD s (delete_client s cid)).documents = s.documents := by
  apply stateOfD_documents_eq
  intro s' h
  unfold delete_client at h
  all_goals try simp only [] at h
  all_goals try split at h
  all_goals try simp only [] at h
  all_goals try split at h
  all_goals try simp only [] at h
  all_goals try split at h
  all_goals try simp only [] at h
  all_goals try split at h
  all_goals simp_all
  all_goals (first
    | (obtain ⟨h1, h2⟩ := h; subst h1; rfl)
    | (subst h; rfl))

/-- Organisation creation never touches the documents collection. -/
theorem create_organisation_documents (s : Store)
    (input : OrganisationCreate) (now newId : Nat) :
    (stateOf s (create_organisation s input now newId)).documents =
      s.documents := by
  apply stateOf_documents_eq
  intro s' x h
  unfold create_organisation at h
  all_goals try simp only [] at h
  all_goals try split at h
  all_goals try simp only [] at h
  all_goals try split at h
  all_goals try simp only [] at h
  all_goals try split at h
  all_goals try simp only [] at h
  all_goals try split at h
  all_goals simp_all
  all_goals (first
    | (obtain ⟨h1, h2⟩ := h; subst h1; rfl)
    | (subst h; rfl))

/-- Organisation update never touches the documents collection. -/
theorem update_organisation_documents (s : Store) (oid : Nat)
    (input : OrganisationUpdate) (now : Nat) :
    (stateOf s (update_organisation s oid input now)).documents =
      s.documents := by
  apply stateOf_documents_eq
  intro s' x h
  unfold update_organisation at h
  all_goals try simp only [] at h
  all_goals try split at h
  all_goals try simp only [] at h
  all_goals try split at h
  all_goals try simp only [] at h
  all_goals try split at h
  all_goals try simp only [] at h
  all_goals try split at h
  all_goals simp_all
  all_goals (first
    | (obtain ⟨h1, h2⟩ := h; subst h1; rfl)
    | (subst h; rfl))

/-- Organisation deletion never touches the documents collection. -/
theorem delete_organisation_documents (s : Store) (oid : Nat) :
    (stateOfD s (delete_organisation s oid)).documents = s.documents := by
  apply stateOfD_documents_eq
  intro s' h
  unfold delete_organisation at h
  all_goals try simp only [] at h
  all_goals try split at h
  all_goals try simp only [] at h
  all_goals try split at h
  all_goals try simp only [] at h
  all_goals try split at h
  all_goals try simp only [] at h
  all_goals try split at h
  all_goals simp_all
  all_goals (first
    | (obtain ⟨h1, h2⟩ := h; subst h1; rfl)
    | (subst h; rfl))

/-- Project creation never touches the documents collection. -/
theorem create_project_documents (s : Store) (input : ProjectCreate)
    (now newId : Nat) :
    (stateOf s (create_project s input now newId)).documents =
      s.documents := by
  apply stateOf_documents_eq
  intro s' x h
  unfold create_project at h
  all_goals try simp only [] at h
  all_goals try split at h
  all_goals try simp only [] at h
  all_goals try split at h
  all_goals try simp only [] at h
  all_goals try split at h
  all_goals try simp only [] at h
  all_goals try split at h
  all_goals simp_all
  all_goals (first
    | (obtain ⟨h1, h2⟩ := h; subst h1; rfl)
    | (subst h; rfl))

/-- Project update never touches the documents collection. -/
theorem update_project_documents (s : Store) (pid : Nat)
    (input : ProjectUpdate) (now : Nat) :
    (stateOf s (update_project s pid input now)).documents =
      s.documents := by
  apply stateOf_documents_eq
  intro s' x h
  unfold update_project at h
  all_goals try simp only [] at h
  all_goals try split at h
  all_goals try simp only [] at h
  all_goals try split at h
  all_goals try simp only [] at h
  all_goals try split at h
  all_goals try simp only [] at h
  all_goals try split at h
  all_goals simp_all
  all_goals (first
    | (obtain ⟨h1, h2⟩ := h; subst h1; rfl)
    | (subst h; rfl))

/-- Project deletion never touches the documents collection. -/
theorem delete_project_documents (s : Store) (pid : Nat) :
    (stateOfD s (delete_project s pid)).documents = s.documents := by
  apply stateOfD_documents_eq
  intro s' h
  unfold delete_project at h
  all_goals try simp only [] at h
  all_goals try split at h
  all_goals try simp only [] at h
  all_goals try split at h
  all_goals try simp only [] at h
  all_goals try split at h
  all_goals try simp only [] at h
  all_goals try split at h
  all_goals simp_all
  all_goals (first
    | (obtain ⟨h1, h2⟩ := h; subst h1; rfl)
    | (subst h; rfl))

/-- Meeting creation never touches the documents collection. -/
theorem create_meeting_documents (s : Store) (input : MeetingCreate)
    (now newId : Nat) :
    (stateOf s (create_meeting s input now newId)).documents =
      s.documents := by
  apply stateOf_documents_eq
  intro s' x h
  unfold create_meeting at h
  all_goals try simp only [] at h
  all_goals try split at h
  all_goals try simp only [] at h
  all_goals try split at h
  all_goals try simp only [] at h
  all_goals try split at h
  all_goals try simp only [] at h
  all_goals try split at h
  all_goals simp_all
  all_goals (first
    | (obtain ⟨h1, h2⟩ := h; subst h1; rfl)
    | (subst h; rfl))

/-- Meeting update never touches the documents collection. -/
theorem update_meeting_documents (s : Store) (mid : Nat)
    (input : MeetingUpdate) (now : Nat) :
    (stateOf s (update_meeting s mid input now)).documents =
      s.documents := by
  apply stateOf_documents_eq
  intro s' x h
  unfold update_meeting at h
  all_goals try simp only [] at h
  all_goals try split at h
  all_goals try simp only [] at h
  all_goals try split at h
  all_goals try simp only [] at h
  all_goals try split at h
  all_goals try simp only [] at h
  all_goals try split at h
  all_goals simp_all
  all_goals (first
    | (obtain ⟨h1, h2⟩ := h; subst h1; rfl)
    | (subst h; rfl))

/-- Meeting deletion never touches the documents collection. -/
theorem delete_meeting_documents (s : Store) (mid : Nat) :
    (stateOfD s (delete_meeting s mid)).documents = s.documents := by
  apply stateOfD_documents_eq
  intro s' h
  unfold delete_meeting at h
  all_goals try simp only [] at h
  all_goals try split at h
  all_goals try simp only [] at h
  all_goals try split at h
  all_goals try simp only [] at h
  all_goals try split at h
  all_goals try simp only [] at h
  all_goals try split at h
  all_goals simp_all
  all_goals (first
    | (obtain ⟨h1, h2⟩ := h; subst h1; rfl)
    | (subst h; rfl))

/-- Adding a transcript never touches the documents collection. -/
theorem add_transcript_documents (s : Store) (mid : Nat) (t : String)
    (now : Nat) :
    (stateOf s (add_transcript s mid t now)).documents = s.documents := by
  apply stateOf_documents_eq
  intro s' x h
  unfold add_transcript at h
  all_goals try simp only [] at h
  all_goals try split at h
  all_goals try simp only [] at h
  all_goals try split at h
  all_goals try simp only [] at h
  all_goals try split at h
  all_goals try simp only [] at h
  all_goals try split at h
  all_goals simp_all
  all_goals (first
    | (obtain ⟨h1, h2⟩ := h; subst h1; rfl)
    | (subst h; rfl))

/-- Adding key points never touches the documents collection. -/
theorem add_key_points_documents (s : Store) (mid : Nat)
    (points : List KeyPoint) (now : Nat) :
    (stateOf s (add_key_points s mid points now)).documents =
      s.documents := by
  apply stateOf_documents_eq
  intro s' x h
  unfold add_key_points at h
  all_goals try simp only [] at h
  all_goals try split at h
  all_goals try simp only [] at h
  all_goals try split at h
  all_goals try simp only [] at h
  all_goals try split at h
  all_goals try simp only [] at h
  all_goals try split at h
  all_goals simp_all
  all_goals (first
    | (obtain ⟨h1, h2⟩ := h; subst h1; rfl)
    | (subst h; rfl))

/-- Adding a recording never touches the documents collection. -/
theorem add_recording_documents (s : Store) (mid : Nat) (url : String)
    (now : Nat) :
    (stateOf s (add_recording s mid url now)).documents = s.documents := by
  apply stateOf_documents_eq
  intro s' x h
  unfold add_recording at h
  all_goals try simp only [] at h
  all_goals try split at h
  all_goals try simp only [] at h
  all_goals try split at h
  all_goals try simp only [] at h
  all_goals try split at h
  all_goals try simp only [] at h
  all_goals try split at h
  all_goals simp_all
  all_goals (first
    | (obtain ⟨h1, h2⟩ := h; subst h1; rfl)
    | (subst h; rfl))

/-- Registration never touches the documents collection. -/
theorem register_user_documents (hash : String → String) (s : Store)
    (input : UserCreate) (newId : Nat) :
    (match register_user hash s input newId with
      | .ok (s', _) => s'
      | .error _ => s).documents = s.documents := by
  unfold register_user create_user
  cases hem : get_user_by_email s.users input.email <;> simp [hem]

/-! ### Success shapes of the document operations -/

/-- A successful document creation appends exactly the returned record,
which is unsigned and carries the supplied fresh id. -/
theorem create_document_ok (s : Store) (input : DocumentCreate)
    (userId now newId : Nat) (s' : Store) (x : Document)
    (h : create_document s input userId now newId = .ok (s', x)) :
    s'.documents = s.documents ++ [x] ∧ x.id = newId ∧ x.signed = false := by
  unfold create_document at h
  all_goals try simp only [] at h
  all_goals try split at h
  all_goals try simp only [] at h
  all_goals try split at h
  all_goals try simp only [Except.ok.injEq, Prod.mk.injEq] at h
  · exact absurd h (by simp)
  · exact absurd h (by simp)
  · obtain ⟨h1, h2⟩ := h
    subst h1 h2
    exact ⟨rfl, rfl, rfl⟩

/-- A successful document update replaces, pointwise, the documents whose
id matches by the returned record, which keeps the id and the signed flag
of the record the handler found. -/
theorem update_document_ok (s : Store) (did : Nat) (input : DocumentUpdate)
    (userId now : Nat) (s' : Store) (d2 : Document)
    (h : update_document s did input userId now = .ok (s', d2)) :
    ∃ doc0, findDocument s did = some doc0 ∧ d2.id = doc0.id ∧
      d2.signed = doc0.signed ∧
      s'.documents =
        s.documents.map (fun y => if y.id == did then d2 else y) := by
  cases hfd : findDocument s did with
  | none => simp [update_document, hfd] at h
  | some doc =>
    simp only [update_document, hfd] at h
    split at h
    · exact absurd h (by simp)
    · split at h
      · exact absurd h (by simp)
      · simp only [Except.ok.injEq, Prod.mk.injEq] at h
        obtain ⟨h1, h2⟩ := h
        subst h1 h2
        refine ⟨doc, rfl, ?_, ?_, rfl⟩
        · cases hb : optStrTruthy input.new_version_content <;> simp [hb]
        · cases hb : optStrTruthy input.new_version_content <;> simp [hb]

/-- A successful signing replaces, pointwise, the documents whose id
matches by the returned record, which keeps the id of the record the
handler found and is signed. -/
theorem sign_document_ok (s : Store) (did userId now : Nat) (s' : Store)
    (d2 : Document) (h : sign_document s did userId now = .ok (s', d2)) :
    ∃ doc0, findDocument s did = some doc0 ∧ d2.id = doc0.id ∧
      d2.signed = true ∧
      s'.documents =
        s.documents.map (fun y => if y.id == did then d2 else y) := by
  cases hfd : findDocument s did with
  | none => simp [sign_document, hfd] at h
  | some doc =>
    simp only [sign_document, hfd] at h
    split at h
    · exact absurd h (by simp)
    · split at h
      · exact absurd h (by simp)
      · simp only [Except.ok.injEq, Prod.mk.injEq] at h
        obtain ⟨h1, h2⟩ := h
        subst h1 h2
        exact ⟨doc, rfl, rfl, rfl, rfl⟩

/-- A successful document deletion erases the first record with the id,
and the record the handler found was unsigned. -/
theorem delete_document_ok (s : Store) (did : Nat) (s' : Store)
    (h : delete_document s did = .ok s') :
    ∃ doc0, findDocument s did = some doc0 ∧ doc0.signed = false ∧
      s'.documents = s.documents.eraseP (fun y => y.id == did) := by
  cases hfd : findDocument s did with
  | none => simp [delete_document, hfd] at h
  | some doc =>
    simp only [delete_document, hfd] at h
    split at h
    · exact absurd h (by simp)
    · rename_i hns
      simp only [Except.ok.injEq] at h
      subst h
      exact ⟨doc, rfl, by simpa using hns, rfl⟩

/-! ### Invariant: document ids stay pairwise distinct -/

/-- The Mongo unique-index invariant on the documents collection. -/
abbrev DocIdsNodup (s : Store) : Prop :=
  (s.documents.map Document.id).Nodup

/-- Document ids sit inside the store's id pool. -/
theorem mem_allIds_of_mem_docIds (s : Store) (a : Nat)
    (ha : a ∈ s.documents.map Document.id) : a ∈ s.allIds := by
  simp only [Store.allIds, List.mem_append]
  tauto

/-- One API call keeps the document ids pairwise distinct. -/
theorem step_preserves_docIdsNodup (hash : String → String) (s : Store)
    (op : Op) (hnd : DocIdsNodup s) : DocIdsNodup (step hash s op) := by
  cases op with
  | createOrganisation input now =>
    simpa [DocIdsNodup, step, create_organisation_documents] using hnd
  | updateOrganisation oid input now =>
    simpa [DocIdsNodup, step, update_organisation_documents] using hnd
  | deleteOrganisation oid =>
    simpa [DocIdsNodup, step, delete_organisation_documents] using hnd
  | createClient input now =>
    simpa [DocIdsNodup, step, create_client_documents] using hnd
  | updateClient cid input now =>
    simpa [DocIdsNodup, step, update_client_documents] using hnd
  | deleteClient cid =>
    simpa [DocIdsNodup, step, delete_client_documents] using hnd
  | createProject input now =>
    simpa [DocIdsNodup, step, create_project_documents] using hnd
  | updateProject pid input now =>
    simpa [DocIdsNodup, step, update_project_documents] using hnd
  | deleteProject pid =>
    simpa [DocIdsNodup, step, delete_project_documents] using hnd
  | createMeeting input now =>
    simpa [DocIdsNodup, step, create_meeting_documents] using hnd
  | updateMeeting mid input now =>
    simpa [DocIdsNodup, step, update_meeting_documents] using hnd
  | deleteMeeting mid =>
    simpa [DocIdsNodup, step, delete_meeting_documents] using hnd
  | addTranscript mid t now =>
    simpa [DocIdsNodup, step, add_transcript_documents] using hnd
  | addKeyPoints mid points now =>
    simpa [DocIdsNodup, step, add_key_points_documents] using hnd
  | addRecording mid url now =>
    simpa [DocIdsNodup, step, add_recording_documents] using hnd
  | registerUser input =>
    simpa [DocIdsNodup, step, register_user_documents] using hnd
  | createDocument input userId now =>
    simp only [DocIdsNodup, step]
    cases hres : create_document s input userId now (freshId s) with
    | error e => exact hnd
    | ok p =>
      obtain ⟨s', x⟩ := p
      obtain ⟨hdocs, hid, -⟩ :=
        create_document_ok s input userId now (freshId s) s' x hres
      show ((s'.documents).map Document.id).Nodup
      rw [hdocs, List.map_append]
      have hfresh : x.id ∉ s.documents.map Document.id := by
        rw [hid]
        intro hmem
        exact freshId_not_mem s (mem_allIds_of_mem_docIds s _ hmem)
      refine List.Nodup.append hnd (List.nodup_singleton _) ?_
      intro a ha hb
      rw [List.map_singleton, List.mem_singleton] at hb
      exact hfresh (hb ▸ ha)
  | updateDocument did input userId now =>
    simp only [DocIdsNodup, step]
    cases hres : update_document s did input userId now with
    | error e => exact hnd
    | ok p =>
      obtain ⟨s', d2⟩ := p
      obtain ⟨doc0, hfd, hid, -, hdocs⟩ :=
        update_document_ok s did input userId now s' d2 hres
      show ((s'.documents).map Document.id).Nodup
      have hfd' : s.documents.find? (fun y => y.id == did) = some doc0 := hfd
      have hpred := List.find?_some hfd'
      have hk : d2.id = did := by
        rw [hid]
        simpa using hpred
      rw [hdocs, map_f_replace Document.id did d2 hk]
      exact hnd
  | signDocument did userId now =>
    simp only [DocIdsNodup, step]
    cases hres : sign_document s did userId now with
    | error e => exact hnd
    | ok p =>
      obtain ⟨s', d2⟩ := p
      obtain ⟨doc0, hfd, hid, -, hdocs⟩ :=
        sign_document_ok s did userId now s' d2 hres
      show ((s'.documents).map Document.id).Nodup
      have hfd' : s.documents.find? (fun y => y.id == did) = some doc0 := hfd
      have hpred := List.find?_some hfd'
      have hk : d2.id = did := by
        rw [hid]
        simpa using hpred
      rw [hdocs, map_f_replace Document.id did d2 hk]
      exact hnd
  | deleteDocument did =>
    simp only [DocIdsNodup, step]
    cases hres : delete_document s did with
    | error e => exact hnd
    | ok s' =>
      obtain ⟨doc0, hfd, -, hdocs⟩ := delete_document_ok s did s' hres
      show ((s'.documents).map Document.id).Nodup
      rw [hdocs]
      exact List.Nodup.sublist
        (List.Sublist.map _ (List.eraseP_sublist _)) hnd

/-- One API call never drops a signed document: some stored document with
the same id is still signed afterwards. -/
theorem step_preserves_signed (hash : String → String) (s : Store) (op : Op)
    (hnd : DocIdsNodup s) (d : Document) (hd : d ∈ s.documents)
    (hs : d.signed = true) :
    ∃ d' ∈ (step hash s op).documents, d'.id = d.id ∧ d'.signed = true := by
  cases op with
  | createOrganisation input now =>
    exact ⟨d, by simpa [step, create_organisation_documents] using hd,
      rfl, hs⟩
  | updateOrganisation oid input now =>
    exact ⟨d, by simpa [step, update_organisation_documents] using hd,
      rfl, hs⟩
  | deleteOrganisation oid =>
    exact ⟨d, by simpa [step, delete_organisation_documents] using hd,
      rfl, hs⟩
  | createClient input now =>
    exact ⟨d, by simpa [step, create_client_documents] using hd, rfl, hs⟩
  | updateClient cid input now =>
    exact ⟨d, by simpa [step, update_client_documents] using hd, rfl, hs⟩
  | deleteClient cid =>
    exact ⟨d, by simpa [step, delete_client_documents] using hd, rfl, hs⟩
  | createProject input now =>
    exact ⟨d, by simpa [step, create_project_documents] using hd, rfl, hs⟩
  | updateProject pid input now =>
    exact ⟨d, by simpa [step, update_project_documents] using hd, rfl, hs⟩
  | deleteProject pid =>
    exact ⟨d, by simpa [step, delete_project_documents] using hd, rfl, hs⟩
  | createMeeting input now =>
    exact ⟨d, by simpa [step, create_meeting_documents] using hd, rfl, hs⟩
  | updateMeeting mid input now =>
    exact ⟨d, by simpa [step, update_meeting_documents] using hd, rfl, hs⟩
  | deleteMeeting mid =>
    exact ⟨d, by simpa [step, delete_meeting_documents] using hd, rfl, hs⟩
  | addTranscript mid t now =>
    exact ⟨d, by simpa [step, add_transcript_documents] using hd, rfl, hs⟩
  | addKeyPoints mid points now =>
    exact ⟨d, by simpa [step, add_key_points_documents] using hd, rfl, hs⟩
  | addRecording mid url now =>
    exact ⟨d, by simpa [step, add_recording_documents] using hd, rfl, hs⟩
  | registerUser input =>
    exact ⟨d, by simpa [step, register_user_documents] using hd, rfl, hs⟩
  | createDocument input userId now =>
    simp only [step]
    cases hres : create_document s input userId now (freshId s) with
    | error e => exact ⟨d, hd, rfl, hs⟩
    | ok p =>
      obtain ⟨s', x⟩ := p
      obtain ⟨hdocs, -, -⟩ :=
        create_document_ok s input userId now (freshId s) s' x hres
      refine ⟨d, ?_, rfl, hs⟩
      show d ∈ s'.documents
      rw [hdocs]
      exact List.mem_append_left _ hd
  | updateDocument did input userId now =>
    simp only [step]
    cases hres : update_document s did input userId now with
    | error e => exact ⟨d, hd, rfl, hs⟩
    | ok p =>
      obtain ⟨s', d2⟩ := p
      obtain ⟨doc0, hfd, hid, hsg, hdocs⟩ :=
        update_document_ok s did input userId now s' d2 hres
      have hfd' : s.documents.find? (fun y => y.id == did) = some doc0 := hfd
      by_cases hdid : d.id = did
      · have hfind_d :=
          find?_eq_of_mem_of_nodup Document.id s.documents hnd d hd
        rw [hdid] at hfind_d
        have hda : doc0 = d :=
          Option.some.inj (hfd'.symm.trans hfind_d)
        refine ⟨d2, ?_, ?_, ?_⟩
        · show d2 ∈ s'.documents
          rw [hdocs]
          exact mem_map_replace_self _ _ _ _ hd (by simp [hdid])
        · rw [hid, hda]
        · rw [hsg, hda, hs]
      · refine ⟨d, ?_, rfl, hs⟩
        show d ∈ s'.documents
        rw [hdocs]
        have hmap := List.mem_map_of_mem
          (fun y : Document => if y.id == did then d2 else y) hd
        simpa [hdid] using hmap
  | signDocument did userId now =>
    simp only [step]
    cases hres : sign_document s did userId now with
    | error e => exact ⟨d, hd, rfl, hs⟩
    | ok p =>
      obtain ⟨s', d2⟩ := p
      obtain ⟨doc0, hfd, hid, hsg, hdocs⟩ :=
        sign_document_ok s did userId now s' d2 hres
      have hfd' : s.documents.find? (fun y => y.id == did) = some doc0 := hfd
      have hpred := List.find?_some hfd'
      by_cases hdid : d.id = did
      · refine ⟨d2, ?_, ?_, hsg⟩
        · show d2 ∈ s'.documents
          rw [hdocs]
          exact mem_map_replace_self _ _ _ _ hd (by simp [hdid])
        · rw [hid, hdid]
          simpa using hpred
      · refine ⟨d, ?_, rfl, hs⟩
        show d ∈ s'.documents
        rw [hdocs]
        have hmap := List.mem_map_of_mem
          (fun y : Document => if y.id == did then d2 else y) hd
        simpa [hdid] using hmap
  | deleteDocument did =>
    simp only [step]
    cases hres : delete_document s did with
    | error e => exact ⟨d, hd, rfl, hs⟩
    | ok s' =>
      obtain ⟨doc0, hfd, hsg0, hdocs⟩ := delete_document_ok s did s' hres
      have hfd' : s.documents.find? (fun y => y.id == did) = some doc0 := hfd
      by_cases hdid : d.id = did
      · have hfind_d :=
          find?_eq_of_mem_of_nodup Document.id s.documents hnd d hd
        rw [hdid] at hfind_d
        have hda : doc0 = d :=
          Option.some.inj (hfd'.symm.trans hfind_d)
        rw [hda, hs] at hsg0
        exact absurd hsg0 (by simp)
      · refine ⟨d, ?_, rfl, hs⟩
        show d ∈ s'.documents
        rw [hdocs]
        exact mem_eraseP_of_mem _ s.documents d hd (by simp [hdid])

/-- A sequence of API calls keeps the document ids pairwise distinct. -/
theorem applyOps_preserves_docIdsNodup (hash : String → String) (s : Store)
    (ops : List Op) (hnd : DocIdsNodup s) :
    DocIdsNodup (applyOps hash s ops) := by
  induction ops generalizing s with
  | nil => exact hnd
  | cons op ops ih =>
    exact ih _ (step_preserves_docIdsNodup hash s op hnd)

/-- A sequence of API calls never drops a signed document. -/
theorem applyOps_preserves_signed (hash : String → String) (s : Store)
    (ops : List Op) (hnd : DocIdsNodup s) (d : Document)
    (hd : d ∈ s.documents) (hs : d.signed = true) :
    ∃ d' ∈ (applyOps hash s ops).documents,
      d'.id = d.id ∧ d'.signed = true := by
  induction ops generalizing s d with
  | nil => exact ⟨d, hd, rfl, hs⟩
  | cons op ops ih =>
    obtain ⟨d', hd', hid, hs'⟩ := step_preserves_signed hash s op hnd d hd hs
    obtain ⟨d'', hd'', hid', hs''⟩ :=
      ih (step hash s op) (step_preserves_docIdsNodup hash s op hnd) d' hd' hs'
    exact ⟨d'', hd'', hid'.trans hid, hs''⟩

/-! ### C3 — a signed document can never be removed -/

/-- C3: on a store whose document ids are distinct (Mongo's `_id` index),
deleting a stored signed document answers the 400 Conflict and leaves the
store untouched, and after any sequence of API calls a document with that
id is still stored and still signed. -/
theorem signed_document_never_removed (hash : String → String) (s : Store)
    (hnd : DocIdsNodup s) (d : Document) (hd : d ∈ s.documents)
    (hs : d.signed = true) :
    delete_document s d.id =
      .error ⟨400, "Cannot delete a signed document"⟩ ∧
    stateOfD s (delete_document s d.id) = s ∧
    ∀ ops : List Op, ∃ d' ∈ (applyOps hash s ops).documents,
      d'.id = d.id ∧ d'.signed = true := by
  have hfd : findDocument s d.id = some d :=
    find?_eq_of_mem_of_nodup Document.id s.documents hnd d hd
  have herr : delete_document s d.id =
      .error ⟨400, "Cannot delete a signed document"⟩ := by
    simp [delete_document, hfd, hs]
  refine ⟨herr, by simp only [herr, stateOfD], ?_⟩
  intro ops
  exact applyOps_preserves_signed hash s ops hnd d hd hs

/-- C3 witness: the signed fixture document cannot be deleted, and after a
sequence that tries to delete it, update it and sign it, a signed document
with its id is still stored. -/
theorem signed_document_never_removed_witness :
    delete_document fixStore 4 =
      Except.error ⟨400, "Cannot delete a signed document"⟩ ∧
    ∃ d' ∈ (applyOps (fun p => p) fixStore
        [Op.deleteDocument 4,
         Op.updateDocument 4 ⟨some "Renamed", none, none, none, none, none,
           none, none⟩ 6 9,
         Op.signDocument 3 6 9,
         Op.deleteDocument 4]).documents,
      d'.id = 4 ∧ d'.signed = true :=
  ⟨(signed_document_never_removed (fun p => p) fixStore (by decide)
      signedDoc (by decide) rfl).1,
   (signed_document_never_removed (fun p => p) fixStore (by decide)
      signedDoc (by decide) rfl).2.2 _⟩

/-! ### C9 — a Project's client reference can dangle -/

/-- Three API calls from the empty store: create a client, create a
project under that client, delete the client. -/
def c9ops : List Op :=
  [Op.createClient ⟨"Bob", "bob@example.com", none, none, none, none⟩ 0,
   Op.createProject ⟨"Survey", none, 1, none, "assessment", none, none,
     none, none, none, []⟩ 0,
   Op.deleteClient 1]

/-- C9 counterexample: after creating a client, a project under it, and
then deleting the client — which `delete_client` allows, as it checks no
referencing projects — the store holds a project whose `client_id`
references a client that no longer exists. -/
theorem project_dangling_client_cex :
    (applyOps (fun p => p) emptyStore c9ops).projects.map
      Project.client_id = [1] ∧
    findClient (applyOps (fun p => p) emptyStore c9ops) 1 = none ∧
    (applyOps (fun p => p) emptyStore c9ops).clients = [] :=
  ⟨rfl, rfl, rfl⟩

/-- C9 (amended): project creation does verify that the referenced client
exists — it answers 404 and inserts nothing otherwise, and on success the
client existed at that moment — but client deletion performs no check for
referencing projects, so the invariant can later be broken. -/
theorem project_client_reference_guards (s : Store) (input : ProjectCreate)
    (now newId : Nat) :
    (findClient s input.client_id = none →
      create_project s input now newId =
        .error ⟨404, "Client not found"⟩ ∧
      stateOf s (create_project s input now newId) = s) ∧
    (∀ s' p, create_project s input now newId = .ok (s', p) →
      (∃ c ∈ s.clients, c.id = input.client_id) ∧
      p.client_id = input.client_id) ∧
    (∀ cid c, findClient s cid = some c →
      delete_client s cid =
        .ok { s with clients :=
          s.clients.eraseP (fun x => x.id == cid) }) := by
  refine ⟨?_, ?_, ?_⟩
  · intro hnone
    have herr : create_project s input now newId =
        .error ⟨404, "Client not found"⟩ := by
      simp [create_project, hnone]
    exact ⟨herr, by simp only [herr, stateOf]⟩
  · intro s' p h
    cases hfc : findClient s input.client_id with
    | none => simp [create_project, hfc] at h
    | some c =>
      have hfc' : s.clients.find? (fun y => y.id == input.client_id) =
          some c := hfc
      refine ⟨⟨c, List.mem_of_find?_eq_some hfc',
        by simpa using List.find?_some hfc'⟩, ?_⟩
      simp only [create_project, hfc] at h
      split at h
      · exact absurd h (by simp)
      · simp only [Except.ok.injEq, Prod.mk.injEq] at h
        obtain ⟨-, h2⟩ := h
        subst h2
        rfl
  · intro cid c hfc
    simp [delete_client, hfc]

/-- C9 amended-claim witness: a project under a missing client is refused
with 404; creating one under the fixture client succeeds with the stored
reference; deleting the fixture client succeeds although the fixture
project references it. -/
theorem project_client_reference_guards_witness :
    create_project emptyStore ⟨"Survey", none, 1, none, "assessment", none,
        none, none, none, none, []⟩ 0 1 =
      Except.error ⟨404, "Client not found"⟩ ∧
    ((∃ c ∈ fixStore.clients, c.id = 1) ∧
      (⟨9, "Extra", none, 1, none, "assessment", none, none, none, [],
        none, none, 0, 0⟩ : Project).client_id = 1) ∧
    delete_client fixStore 1 =
      Except.ok { fixStore with clients :=
        (fixStore.clients.eraseP (fun x => x.id == 1)) } :=
  ⟨((project_client_reference_guards emptyStore ⟨"Survey", none, 1, none,
      "assessment", none, none, none, none, none, []⟩ 0 1).1 rfl).1,
   (project_client_reference_guards fixStore ⟨"Extra", none, 1, none,
      "assessment", none, none, none, none, none, []⟩ 0 9).2.1
     { fixStore with projects := fixStore.projects ++
        [⟨9, "Extra", none, 1, none, "assessment", none, none, none, [],
          none, none, 0, 0⟩] }
     ⟨9, "Extra", none, 1, none, "assessment", none, none, none, [],
       none, none, 0, 0⟩ rfl,
   (project_client_reference_guards fixStore ⟨"Extra", none, 1, none,
      "assessment", none, none, none, none, none, []⟩ 0 9).2.2 1 bobClient
     (by decide)⟩

end RogueDrones
